import Mathlib

/-!
Verification of the voltamanager version-check-and-update engine.

Shallow embedding of the Python sources:
  - src/voltamanager/core.py        (parse_package)
  - src/voltamanager/cache.py       (get_cached_version)
  - src/voltamanager/npm.py         (get_latest_version, get_latest_versions_batch,
                                     get_latest_versions_parallel)
  - src/voltamanager/utils.py       (check_disk_space, estimate_update_size)
  - src/voltamanager/operations.py  (check_and_update, save_snapshot ordering)
  - src/voltamanager/__init__.py    (rollback)

External effects (registry HTTP, cache file reads, disk-usage queries, the
interactive confirmation prompt and the volta subprocess) are modelled as
oracle parameters; everything else is translated directly from the source.
-/

namespace VoltaManager

/-! ## Package identity parser (core.py, parse_package) -/

/-- Split a char list at the first occurrence of `c`: returns the part before
and the part after (separator removed).  If `c` is absent the whole list is
the first component (Python `str.split` first segment). -/
def splitFirst (c : Char) : List Char → List Char × List Char
  | [] => ([], [])
  | x :: xs =>
    if x = c then ([], xs)
    else
      let r := splitFirst c xs
      (x :: r.1, r.2)

/-- `name_ver.rsplit("@", 1)` for a list that contains `c`: split at the last
occurrence of `c`. -/
def rsplitLast (c : Char) (l : List Char) : List Char × List Char :=
  let r := splitFirst c l.reverse
  (r.2.reverse, r.1.reverse)

/-- core.py `parse_package`, on the character list of the token.
Mirrors the source line by line:
- no `@` in the token: `(token, "")`;
- token starts with `@` (scoped): fewer than two `@` means no version,
  otherwise split on the last `@`;
- otherwise split on every `@` and keep the first two parts. -/
def parsePackageChars (l : List Char) : List Char × List Char :=
  if '@' ∉ l then (l, [])
  else if l.head? = some '@' then
    if l.count '@' < 2 then (l, [])
    else rsplitLast '@' l
  else
    let p := splitFirst '@' l
    (p.1, (splitFirst '@' p.2).1)

/-- core.py `parse_package : str -> (str, str)`. -/
def parse_package (name_ver : String) : String × String :=
  let r := parsePackageChars name_ver.toList
  (String.mk r.1, String.mk r.2)

/-! ## Version cache (cache.py, get_cached_version)

Timestamps are modelled as rationals (Python floats from `time.time()`).
The loaded cache file is the oracle `cache : String → Option CacheEntry`;
`CacheEntry.v` is the entry's `"v"` field when present and a string (the code
returns `None` otherwise), `CacheEntry.ts` is the `"ts"` field coerced as the
code does (`0` when missing or non-numeric). -/

/-- One entry of the on-disk `versions.json` cache, after the field coercions
performed by `get_cached_version`. -/
structure CacheEntry where
  v : Option String
  ts : ℚ
deriving DecidableEq

/-- cache.py `get_cached_version`: absent when the name has no entry or the
entry's age strictly exceeds `ttl_hours * 3600` seconds; otherwise the stored
version (which is `none` when the `"v"` field was not a string). -/
def get_cached_version (cache : String → Option CacheEntry) (now : ℚ)
    (package_name : String) (ttl_hours : ℚ) : Option String :=
  match cache package_name with
  | none => none
  | some entry => if now - entry.ts > ttl_hours * 3600 then none else entry.v

/-! ## Registry resolver (npm.py) -/

/-- npm.py `MAX_RETRIES`: retries after the first attempt. -/
def MAX_RETRIES : Nat := 2

/-- npm.py `RETRY_DELAYS = (0.5, 1.0)` in seconds. -/
def RETRY_DELAYS : List ℚ := [1/2, 1]

/-- One HTTP attempt of `get_latest_version`, as an oracle indexed by the
attempt number: `.error ()` is a caught transient failure (`URLError`,
`HTTPError`, `JSONDecodeError`, `TimeoutError`); `.ok v` is a 200 response
whose parsed `"version"` field is `v` (`none` when missing or not a string). -/
def AttemptOracle : Type := Nat → Except Unit (Option String)

/-- The retry loop of npm.py `get_latest_version`
(`for attempt in range(MAX_RETRIES + 1)`), with the remaining iteration count
as fuel.  Returns the result together with the list of `time.sleep` delays
performed, in order. -/
def retryFrom (o : AttemptOracle) : Nat → Nat → Option String × List ℚ
  | 0, _ => (none, [])
  | fuel + 1, attempt =>
    match o attempt with
    | .ok v => (v, [])
    | .error _ =>
      if attempt < MAX_RETRIES then
        let r := retryFrom o fuel (attempt + 1)
        (r.1, RETRY_DELAYS.getD attempt 0 :: r.2)
      else (none, [])

/-- npm.py `get_latest_version`: up to `MAX_RETRIES + 1 = 3` attempts, sleeping
`RETRY_DELAYS[attempt]` after each failed non-final attempt, returning `none`
after exhausting all attempts. -/
def get_latest_version (o : AttemptOracle) : Option String × List ℚ :=
  retryFrom o (MAX_RETRIES + 1) 0

/-- npm.py `get_latest_versions_batch`: empty input returns `{}` immediately;
otherwise one bulk POST, modelled by the oracle
`http : List String → Option (String → Option String)` (`none` is any caught
failure, `some dataGet` is a parsed response where `dataGet n` is
`data.get(n, {}).get("version")` when a string).  On success the result has one
entry per requested name; on failure it is the empty map. -/
def get_latest_versions_batch (package_names : List String)
    (http : List String → Option (String → Option String)) :
    List (String × Option String) :=
  if package_names = [] then []
  else
    match http package_names with
    | some dataGet => package_names.map (fun n => (n, dataGet n))
    | none => []

/-- The per-item future collection of `get_latest_versions_parallel`:
`future.result()` is the oracle `one`, and any raised exception is caught and
mapped to `None` for that item only. -/
def itemOutcome (one : String → Except Unit (Option String)) (n : String) :
    Option String :=
  match one n with
  | .ok v => v
  | .error _ => none

/- npm.py `get_latest_versions_parallel`: drop `"project"`-versioned entries,
return `{}` on no names, try the batch endpoint for at most 10 names and use a
non-empty batch result directly, otherwise fan out per-item lookups (the
`as_completed` collection order is modelled as input order; as a map the result
is the same). -/

/-- The filtered name list
`[name for name, ver in packages if ver != "project"]` of npm.py line 112. -/
def parallel_package_names (packages : List (String × String)) : List String :=
  (packages.filter (fun p => p.2 ≠ "project")).map Prod.fst

/-- npm.py `get_latest_versions_parallel`, body as documented above. -/
def get_latest_versions_parallel (packages : List (String × String))
    (http : List String → Option (String → Option String))
    (one : String → Except Unit (Option String)) :
    List (String × Option String) :=
  let package_names := parallel_package_names packages
  if package_names = [] then []
  else if package_names.length ≤ 10 then
    let batch_results := get_latest_versions_batch package_names http
    if batch_results ≠ [] then batch_results
    else package_names.map (fun n => (n, itemOutcome one n))
  else package_names.map (fun n => (n, itemOutcome one n))

/-! ## Python positional-call semantics for the orchestrator's resolver call

npm.py declares `def get_latest_versions_parallel(packages, max_workers=10)`
(one required parameter, one optional).  operations.py invokes it as
`get_latest_versions_parallel(uncached, safe_dir, config.parallel_checks)` —
three positional arguments (operations.py:164-166 and 186-188).  CPython
rejects such a call with `TypeError` before the callee body runs. -/

/-- Errors a Python call can raise in this model. -/
inductive PyError where
  | typeError
deriving DecidableEq

/-- A call with `n` positional arguments binds iff
`required ≤ n ≤ required + optional`. -/
def acceptsPositional (required optional n : Nat) : Bool :=
  required ≤ n && n ≤ required + optional

/-- Required positional parameters of npm.py `get_latest_versions_parallel`
(`packages`). -/
def parallel_sig_required : Nat := 1

/-- Optional positional parameters of npm.py `get_latest_versions_parallel`
(`max_workers=10`). -/
def parallel_sig_optional : Nat := 1

/-- Positional arguments supplied at the operations.py call sites
(`uncached`/`packages_to_check`, `safe_dir`, `config.parallel_checks`). -/
def operations_resolver_argc : Nat := 3

/-- The orchestrator's invocation of the parallel resolver, including Python's
positional-arity check.  When the call binds, the result map is the one
produced by `get_latest_versions_parallel` and `.get(name)` is modelled by
`lookup` followed by `Option.join` (an absent key and a `None` value are both
`None` to the caller). -/
def callParallelResolver (args : List (String × String))
    (http : List String → Option (String → Option String))
    (one : String → Except Unit (Option String)) :
    Except PyError (String → Option String) :=
  if acceptsPositional parallel_sig_required parallel_sig_optional
      operations_resolver_argc then
    .ok (fun n => ((get_latest_versions_parallel args http one).lookup n).join)
  else .error .typeError

/-! ## Configuration (config.py) -/

/-- config.py `Config` (the fields `check_and_update` reads). -/
structure Config where
  exclude : List String
  include_project : Bool
  cache_ttl_hours : ℚ
  parallel_checks : Nat
deriving DecidableEq

/-- config.py `Config.should_exclude`. -/
def Config.should_exclude (c : Config) (package_name : String) : Bool :=
  c.exclude.contains package_name

/-! ## Update orchestrator (operations.py, check_and_update) -/

/-- Observable side effects of one `check_and_update` run, in program order:
`cache_version` writes, the `save_snapshot` write, the
`volta install` invocation, and the `log_update` history append. -/
inductive Event where
  | cacheWrite (name version : String)
  | snapshotWrite (snapshot : List (String × String))
  | installInvoke (specs : List String)
  | logUpdate (specs : List String)
deriving DecidableEq

/-- The mutable locals of `check_and_update` lines 109-138: the five row lists,
the install plan, the snapshot dict, the excluded list and the checkable
list. -/
structure Partition where
  names : List String
  installed : List String
  latest : List String
  states : List String
  to_install : List String
  snapshot : List (String × String)
  excluded_packages : List (String × String)
  packages_to_check : List (String × String)
deriving DecidableEq

/-- All-empty initial locals. -/
def emptyPartition : Partition := ⟨[], [], [], [], [], [], [], []⟩

/-- Python dict assignment `d[k] = v` on an association list: replace the value
at an existing key in place, else append. -/
def dictInsert (k v : String) : List (String × String) → List (String × String)
  | [] => [(k, v)]
  | (a, b) :: rest =>
    if a = k then (a, v) :: rest else (a, b) :: dictInsert k v rest

/-- One iteration of the parsing loop (operations.py lines 119-138): excluded
names are skipped (collected when `all_packages`), `"project"` versions become
PROJECT rows (added to the plan when `include_project`), everything else goes
into the snapshot dict and the checkable list. -/
def partitionStep (cfg : Config) (include_project all_packages : Bool)
    (acc : Partition) (name_ver : String) : Partition :=
  let p := parse_package name_ver
  if cfg.should_exclude p.1 then
    if all_packages then
      { acc with excluded_packages := acc.excluded_packages ++ [p] }
    else acc
  else if p.2 = "project" then
    { acc with
      names := acc.names ++ [p.1]
      installed := acc.installed ++ [p.2]
      latest := acc.latest ++ ["-"]
      states := acc.states ++ ["PROJECT"]
      to_install :=
        if include_project then acc.to_install ++ [p.1 ++ "@latest"]
        else acc.to_install }
  else
    { acc with
      snapshot := dictInsert p.1 p.2 acc.snapshot
      packages_to_check := acc.packages_to_check ++ [p] }

/-- The whole parsing loop of `check_and_update`. -/
def partitionPackages (namevers : List String) (cfg : Config)
    (include_project all_packages : Bool) : Partition :=
  namevers.foldl (partitionStep cfg include_project all_packages) emptyPartition

/-- One iteration of the cache-first loop (operations.py lines 143-159): a
truthy cached version appends a classified row (and extends the plan when
outdated); a miss (no entry, or the empty string, which is falsy) leaves the
locals unchanged. -/
def cacheHitStep (cacheGet : String → Option String) (acc : Partition)
    (q : String × String) : Partition :=
  match cacheGet q.1 with
  | some lat =>
    if lat ≠ "" then
      { acc with
        names := acc.names ++ [q.1]
        installed := acc.installed ++ [q.2]
        latest := acc.latest ++ [lat]
        states := acc.states ++ [if q.2 = lat then "up-to-date" else "OUTDATED"]
        to_install :=
          if q.2 = lat then acc.to_install
          else acc.to_install ++ [q.1 ++ "@latest"] }
    else acc
  | none => acc

/-- One iteration of the uncached loop (operations.py lines 167-183): a truthy
resolved version is written to the cache; `None` yields a `"?"`/UNKNOWN row;
otherwise the row is classified against the installed version. -/
def uncachedStep (lv : String → Option String) (acc : Partition × List Event)
    (q : String × String) : Partition × List Event :=
  match lv q.1 with
  | none =>
    ({ acc.1 with
       names := acc.1.names ++ [q.1]
       installed := acc.1.installed ++ [q.2]
       latest := acc.1.latest ++ ["?"]
       states := acc.1.states ++ ["UNKNOWN"] }, acc.2)
  | some lat =>
    ({ acc.1 with
       names := acc.1.names ++ [q.1]
       installed := acc.1.installed ++ [q.2]
       latest := acc.1.latest ++ [lat]
       states := acc.1.states ++ [if q.2 = lat then "up-to-date" else "OUTDATED"]
       to_install :=
         if q.2 = lat then acc.1.to_install
         else acc.1.to_install ++ [q.1 ++ "@latest"] },
     if lat ≠ "" then acc.2 ++ [Event.cacheWrite q.1 lat] else acc.2)

/-- One iteration of the no-cache loop (operations.py lines 189-202): like
`uncachedStep` but with no `cache_version` write. -/
def noCacheStep (lv : String → Option String) (acc : Partition)
    (q : String × String) : Partition :=
  match lv q.1 with
  | none =>
    { acc with
      names := acc.names ++ [q.1]
      installed := acc.installed ++ [q.2]
      latest := acc.latest ++ ["?"]
      states := acc.states ++ ["UNKNOWN"] }
  | some lat =>
    { acc with
      names := acc.names ++ [q.1]
      installed := acc.installed ++ [q.2]
      latest := acc.latest ++ [lat]
      states := acc.states ++ [if q.2 = lat then "up-to-date" else "OUTDATED"]
      to_install :=
        if q.2 = lat then acc.to_install
        else acc.to_install ++ [q.1 ++ "@latest"] }

/-- The version-checking phase of `check_and_update` (operations.py
lines 140-202).  With caching, uncached names
(`n not in names` after the hit loop) are batched into one resolver call only
when non-empty; without caching the resolver is called on the full checkable
list unconditionally.  Either call carries the three positional arguments of
the source and therefore goes through `callParallelResolver`. -/
def resolvePhase (p : Partition) (use_cache : Bool)
    (cacheGet : String → Option String)
    (http : List String → Option (String → Option String))
    (one : String → Except Unit (Option String)) :
    Except PyError (Partition × List Event) :=
  if use_cache then
    let acc := p.packages_to_check.foldl (cacheHitStep cacheGet) p
    let uncached := p.packages_to_check.filter (fun q => !acc.names.contains q.1)
    if uncached = [] then .ok (acc, [])
    else
      match callParallelResolver uncached http one with
      | .error e => .error e
      | .ok lv => .ok (uncached.foldl (uncachedStep lv) (acc, []))
  else
    match callParallelResolver p.packages_to_check http one with
    | .error e => .error e
    | .ok lv => .ok (p.packages_to_check.foldl (noCacheStep lv) p, [])

/-- One EXCLUDED display row (operations.py lines 206-210). -/
def excludedRow (acc : Partition) (q : String × String) : Partition :=
  { acc with
    names := acc.names ++ [q.1]
    installed := acc.installed ++ [q.2]
    latest := acc.latest ++ ["-"]
    states := acc.states ++ ["EXCLUDED"] }

/-- operations.py lines 204-210: append EXCLUDED display rows when
`all_packages` is set and any package was excluded. -/
def excludedRowsStep (all_packages : Bool) (p : Partition) : Partition :=
  if all_packages && !(p.excluded_packages = []) then
    p.excluded_packages.foldl excludedRow p
  else p

/-- utils.py `estimate_update_size`: a flat 50 MB per package. -/
def estimate_update_size (package_count : Nat) : Nat := package_count * 50

/-- utils.py `check_disk_space`: free bytes from `shutil.disk_usage` as an
oracle (`none` is a raised `OSError`).  On success, megabytes available and the
comparison against `min_mb`; on `OSError`, `(True, -1)`. -/
def check_disk_space (min_mb : Nat) (freeBytes : Option Nat) : Bool × Int :=
  match freeBytes with
  | some free =>
    let available_mb := free / (1024 * 1024)
    (decide (available_mb ≥ min_mb), (available_mb : Int))
  | none => (true, -1)

/-- `pkg.rsplit("@", 1)[0]`: the part before the last `@`, or the whole string
when no `@` occurs (used for the interactive prompt's package name). -/
def pyRsplitName (pkg : String) : String :=
  if '@' ∉ pkg.toList then pkg
  else String.mk (rsplitLast '@' pkg.toList).1

/-- operations.py lines 295-319: `save_snapshot` then the `volta install`
subprocess; on exit code 0 the update is logged and 0 returned, otherwise the
subprocess's exit code is returned (snapshot and install already performed). -/
def updateAfterChecks (snapshot : List (String × String)) (plan : List String)
    (installCode : List String → Int) : Int × List Event :=
  let code := installCode plan
  if code = 0 then
    (0, [Event.snapshotWrite snapshot, Event.installInvoke plan,
         Event.logUpdate plan])
  else (code, [Event.snapshotWrite snapshot, Event.installInvoke plan])

/-- operations.py lines 279-319: everything after the disk-space gate —
interactive per-package filtering (empty selection returns 0), the dry-run
report (returns 0 with no mutation), then snapshot + install. -/
def updateAfterGate (snapshot : List (String × String)) (to_install : List String)
    (dry_run interactive : Bool) (confirm : String → Bool)
    (installCode : List String → Int) : Int × List Event :=
  let plan :=
    if interactive then to_install.filter (fun pkg => confirm (pyRsplitName pkg))
    else to_install
  if interactive && plan = [] then (0, [])
  else if dry_run then (0, [])
  else updateAfterChecks snapshot plan installCode

/-- operations.py lines 250-319: the update branch.  An empty plan returns 0;
unless dry-run, the disk gate blocks (exit 1, no mutation) when the space check
reports insufficient space with a non-negative measured amount. -/
def updatePhase (snapshot : List (String × String)) (to_install : List String)
    (dry_run interactive : Bool) (freeBytes : Option Nat)
    (confirm : String → Bool) (installCode : List String → Int) :
    Int × List Event :=
  if to_install = [] then (0, [])
  else
    let gate := check_disk_space (estimate_update_size to_install.length) freeBytes
    let blocked := !dry_run && (!gate.1 && decide (gate.2 ≥ 0))
    if blocked then (1, [])
    else updateAfterGate snapshot to_install dry_run interactive confirm installCode

/-- operations.py `check_and_update`, parameters in source order followed by
the oracles (cache lookups, batch HTTP, per-item lookups, free disk bytes, the
interactive prompt, the install subprocess).  Returns the exit code (or the
uncaught Python exception) and the list of observable effects in order.
`do_check`, `json_output`, `outdated_only` and `verbose` only drive rendering
(display.py), which is out of the data path. -/
def check_and_update (namevers : List String) (safe_dir : String)
    (do_check do_update dry_run include_project json_output outdated_only
     interactive use_cache : Bool) (cfg : Config) (verbose all_packages : Bool)
    (cacheGet : String → Option String)
    (http : List String → Option (String → Option String))
    (one : String → Except Unit (Option String))
    (freeBytes : Option Nat) (confirm : String → Bool)
    (installCode : List String → Int) : Except PyError Int × List Event :=
  let part := partitionPackages namevers cfg include_project all_packages
  match resolvePhase part use_cache cacheGet http one with
  | .error e => (.error e, [])
  | .ok r =>
    let acc := excludedRowsStep all_packages r.1
    if do_update then
      let u := updatePhase part.snapshot acc.to_install dry_run interactive
        freeBytes confirm installCode
      (.ok u.1, r.2 ++ u.2)
    else (.ok 0, r.2)

/-! ## Rollback executor (__init__.py, rollback) -/

/-- Outcome of one `rollback` invocation: the exit code, the install specs
passed to `volta install` (empty when it was never invoked), and the requested
names reported as skipped. -/
structure RollbackResult where
  exit : Int
  installed : List String
  skipped : List String
deriving DecidableEq

/-- __init__.py `rollback`: `snapshotFile` is the parsed snapshot (`none` when
the file does not exist).  With requested names, the snapshot is filtered to
them; an empty filtered result exits 1; names absent from the snapshot are
reported as skipped (the source's set difference, modelled as a filtered list
with the same membership).  Install specs are exact `name@version` pins; a
declined confirmation exits 0; otherwise the install subprocess's exit code is
propagated. -/
def rollback :
    Option (List (String × String)) → List String → Bool → Bool →
      (List String → Int) → RollbackResult
  | none, _, _, _, _ => ⟨1, [], []⟩
  | some snapshot0, packages, force, confirmAnswer, installCode =>
    let step :
        Option (List (String × String) × List String) :=
      if packages = [] then some (snapshot0, [])
      else
        let filtered := snapshot0.filter (fun p => packages.contains p.1)
        if filtered = [] then none
        else
          some (filtered,
            packages.filter (fun q => !(filtered.map Prod.fst).contains q))
    match step with
    | none => ⟨1, [], []⟩
    | some (snapshot, missing) =>
      let packages_to_install := snapshot.map (fun p => p.1 ++ "@" ++ p.2)
      if !force && !confirmAnswer then ⟨0, [], missing⟩
      else
        let code := installCode packages_to_install
        ⟨code, packages_to_install, missing⟩

/-! ## Spec-side definitions for claim C3 -/

/-- The claim's CHECKABLE set: every parsed token that is neither excluded nor
project-pinned (routing order as in the source: exclusion first). -/
def checkable_names (namevers : List String) (cfg : Config) : List String :=
  namevers.filterMap (fun tok =>
    let p := parse_package tok
    if cfg.should_exclude p.1 then none
    else if p.2 = "project" then none
    else some p.1)

/-- From the claim's words: the PROJECT packages, "tokens whose version is
`project`". -/
def project_names (namevers : List String) : List String :=
  namevers.filterMap (fun tok =>
    let p := parse_package tok
    if p.2 = "project" then some p.1 else none)

/-- From the claim's words: the key set the spec says the saved snapshot must
have — the CHECKABLE names plus, when project inclusion is enabled, the
PROJECT names. -/
def claimed_snapshot_keys (namevers : List String) (cfg : Config)
    (include_project : Bool) : List String :=
  checkable_names namevers cfg ++
    (if include_project then project_names namevers else [])

/-! ## Trace checker for claim C2 -/

/-- Whether an event is a `cache_version` write. -/
def Event.isCacheWrite : Event → Bool
  | .cacheWrite _ _ => true
  | _ => false

/-- Scans a trace left to right carrying "a snapshot write has already
happened"; `false` (only) on an install invocation not preceded by a snapshot
write. -/
def snapBeforeInstallOk : List Event → Bool → Bool
  | [], _ => true
  | .snapshotWrite _ :: r, _ => snapBeforeInstallOk r true
  | .installInvoke _ :: r, seen => seen && snapBeforeInstallOk r seen
  | .cacheWrite _ _ :: r, seen => snapBeforeInstallOk r seen
  | .logUpdate _ :: r, seen => snapBeforeInstallOk r seen

/-! ## Helper lemmas -/

theorem splitFirst_of_not_mem (c : Char) (l : List Char) (h : c ∉ l) :
    splitFirst c l = (l, []) := by
  induction l with
  | nil => rfl
  | cons x xs ih =>
    rw [List.mem_cons, not_or] at h
    rw [splitFirst, if_neg (Ne.symm h.1), ih h.2]

theorem splitFirst_append (c : Char) (xs ys : List Char) (h : c ∉ xs) :
    splitFirst c (xs ++ c :: ys) = (xs, ys) := by
  induction xs with
  | nil => simp [splitFirst]
  | cons x t ih =>
    rw [List.mem_cons, not_or] at h
    rw [List.cons_append, splitFirst, if_neg (Ne.symm h.1), ih h.2]

theorem strToList_append (s t : String) : (s ++ t).toList = s.toList ++ t.toList :=
  rfl

theorem strMk_toList (s : String) : String.mk s.toList = s :=
  rfl

/-- C5: The package-identity parser is total (it is a function returning a
pair on every string, with `""` mapped to `("", "")` and an `@`-free token
mapped to `(token, "")`), and scoped tokens round-trip: for every scoped name
starting with `@` and containing exactly one `/`, and every version not
containing `@`, parsing `scope ++ "@" ++ version` recovers
`(scope, version)`, because scoped tokens with at least two `@` are split on
the last `@`. -/
theorem parse_package_total_and_scoped_roundtrip :
    parse_package "" = ("", "") ∧
    (∀ token : String, '@' ∉ token.toList → parse_package token = (token, "")) ∧
    (∀ scope ver : String, scope.toList.head? = some '@' →
      scope.toList.count '/' = 1 → '@' ∉ ver.toList →
      parse_package (scope ++ "@" ++ ver) = (scope, ver)) := by
  refine ⟨rfl, ?_, ?_⟩
  · intro token h
    unfold parse_package parsePackageChars
    rw [if_pos h]
    rfl
  · intro scope ver h1 _h2 h3
    have hl : (scope ++ "@" ++ ver).toList = scope.toList ++ '@' :: ver.toList := by
      rw [strToList_append, strToList_append]
      have hat : ("@" : String).toList = ['@'] := rfl
      rw [hat, List.append_assoc]
      rfl
    obtain ⟨xs, hxs⟩ : ∃ xs, scope.toList = '@' :: xs := by
      cases hsc : scope.toList with
      | nil => rw [hsc] at h1; cases h1
      | cons y ys =>
        rw [hsc] at h1
        simp only [List.head?_cons, Option.some.injEq] at h1
        exact ⟨ys, by rw [h1]⟩
    unfold parse_package parsePackageChars
    rw [hl, hxs]
    have hmem : '@' ∈ ('@' :: xs) ++ '@' :: ver.toList := by simp
    rw [if_neg (not_not_intro hmem)]
    have hhead : ((('@' :: xs) ++ '@' :: ver.toList).head? = some '@') := by simp
    rw [if_pos hhead]
    have hcount : ¬ (('@' :: xs) ++ '@' :: ver.toList).count '@' < 2 := by
      rw [List.count_append, List.count_cons_self, List.count_cons_self]
      omega
    rw [if_neg hcount]
    unfold rsplitLast
    have hrev : (('@' :: xs) ++ '@' :: ver.toList).reverse =
        ver.toList.reverse ++ '@' :: ('@' :: xs).reverse := by
      rw [List.reverse_append, List.reverse_cons]
      simp
    rw [hrev, splitFirst_append '@' _ _ (by simpa using h3)]
    simp only [List.reverse_reverse]
    rw [← hxs, strMk_toList, strMk_toList]

/-- C5 witness: the round-trip clause applied at `"@vue/cli"` and `"5.0.8"`,
and the `@`-free clause at `"typescript"`. -/
theorem parse_package_total_and_scoped_roundtrip_witness :
    parse_package "@vue/cli@5.0.8" = ("@vue/cli", "5.0.8") ∧
    parse_package "typescript" = ("typescript", "") := by
  constructor
  · exact parse_package_total_and_scoped_roundtrip.2.2 "@vue/cli" "5.0.8"
      (by decide) (by decide) (by decide)
  · exact parse_package_total_and_scoped_roundtrip.2.1 "typescript" (by decide)

/-- C4 counterexample: an entry written at time `T = 0` queried with
`ttlHours = 1` exactly at the boundary `T + 3600` is still returned — the code
expires entries only when `age > ttl_seconds` (cache.py line 72), while the
claim demands absence at `age ≥ ttl_seconds`. -/
theorem cache_get_at_exact_ttl_boundary_returns_version :
    get_cached_version
      (fun n => if n = "pkg" then some ⟨some "1.0.0", 0⟩ else none)
      3600 "pkg" 1 = some "1.0.0" := by
  unfold get_cached_version
  norm_num

/-- C4 (amended): for an entry holding version `v` written at time `T`, a get
with `ttlHours = h` returns the stored version at any query time with
`now - T ≤ h * 3600` (including exactly at the boundary) and returns absent
whenever `now - T > h * 3600`. -/
theorem cache_ttl_boundary_amended :
    ∀ (cache : String → Option CacheEntry) (name v : String) (T now h : ℚ),
      cache name = some ⟨some v, T⟩ →
      (now - T ≤ h * 3600 → get_cached_version cache now name h = some v) ∧
      (now - T > h * 3600 → get_cached_version cache now name h = none) := by
  intro cache name v T now h hc
  constructor
  · intro hle
    unfold get_cached_version
    rw [hc]
    exact if_neg (not_lt.mpr hle)
  · intro hgt
    unfold get_cached_version
    rw [hc]
    exact if_pos hgt

/-- C4 witness: the amended theorem applied to an entry written at `T = 100`
with `h = 1`, queried at the boundary `3700` (hit) and at `3701` (miss). -/
theorem cache_ttl_boundary_amended_witness :
    get_cached_version (fun _ => some ⟨some "2.0.0", 100⟩) 3700 "x" 1 = some "2.0.0" ∧
    get_cached_version (fun _ => some ⟨some "2.0.0", 100⟩) 3701 "x" 1 = none := by
  constructor
  · exact (cache_ttl_boundary_amended (fun _ => some ⟨some "2.0.0", 100⟩)
      "x" "2.0.0" 100 3700 1 rfl).1 (by norm_num)
  · exact (cache_ttl_boundary_amended (fun _ => some ⟨some "2.0.0", 100⟩)
      "x" "2.0.0" 100 3701 1 rfl).2 (by norm_num)

/-- C1: the orchestrator's call into the parallel resolver does NOT complete:
npm.py declares `get_latest_versions_parallel(packages, max_workers=10)` but
operations.py invokes it with the three positional arguments
`(uncached, safe_dir, config.parallel_checks)`, so the call raises `TypeError`
instead of returning a result map.  Evaluated at the failing input
`namevers = ["typescript@4.9.5"]` with caching disabled: the run aborts with
the exception crossing the orchestrator boundary and no result rows. -/
theorem resolver_call_arity_raises_typeError :
    acceptsPositional parallel_sig_required parallel_sig_optional
      operations_resolver_argc = false ∧
    check_and_update ["typescript@4.9.5"] "/home/user" true true false false
      false false false false ⟨[], false, 1, 10⟩ false false
      (fun _ => none) (fun _ => none) (fun _ => .ok none)
      (some 1000000000) (fun _ => true) (fun _ => 0) =
      (.error .typeError, []) :=
  ⟨rfl, rfl⟩

/-- C7: single-item resolution makes at most 3 attempts (hence at most 2
inter-attempt delays), sleeps `0.5` after the first failed attempt and `1.0`
after the second, returns the successful value after exactly 2 delays when the
first two attempts fail, and returns absent (without raising — its result type
is an `Option`, every transient failure being consumed by the loop) after all
3 attempts fail. -/
theorem resolver_retry_backoff :
    ∀ o : AttemptOracle,
      ((get_latest_version o).2.length ≤ MAX_RETRIES) ∧
      (∀ v, o 0 = .ok v → get_latest_version o = (v, [])) ∧
      (∀ v, o 0 = .error () → o 1 = .ok v →
        get_latest_version o = (v, [1/2])) ∧
      (∀ v, o 0 = .error () → o 1 = .error () → o 2 = .ok v →
        get_latest_version o = (v, [1/2, 1])) ∧
      (o 0 = .error () → o 1 = .error () → o 2 = .error () →
        get_latest_version o = (none, [1/2, 1])) := by
  intro o
  refine ⟨?_, ?_, ?_, ?_, ?_⟩
  · rcases h0 : o 0 with u | v
    · rcases h1 : o 1 with u1 | v1
      · rcases h2 : o 2 with u2 | v2 <;>
          simp [get_latest_version, retryFrom, h0, h1, h2, MAX_RETRIES, RETRY_DELAYS]
      · simp [get_latest_version, retryFrom, h0, h1, MAX_RETRIES, RETRY_DELAYS]
    · simp [get_latest_version, retryFrom, h0, MAX_RETRIES]
  · intro v h0
    simp [get_latest_version, retryFrom, h0]
  · intro v h0 h1
    simp [get_latest_version, retryFrom, h0, h1, MAX_RETRIES, RETRY_DELAYS]
  · intro v h0 h1 h2
    simp [get_latest_version, retryFrom, h0, h1, h2, MAX_RETRIES, RETRY_DELAYS]
  · intro h0 h1 h2
    simp [get_latest_version, retryFrom, h0, h1, h2, MAX_RETRIES, RETRY_DELAYS]

/-- C7 witness: an oracle that fails on attempts 0 and 1 and succeeds on
attempt 2 yields the successful value after exactly the delays
`[0.5, 1.0]`. -/
theorem resolver_retry_backoff_witness :
    get_latest_version
      (fun n => if n < 2 then .error () else .ok (some "9.9.9")) =
      (some "9.9.9", [1/2, 1]) :=
  (resolver_retry_backoff
      (fun n => if n < 2 then .error () else .ok (some "9.9.9"))).2.2.2.1
    (some "9.9.9") rfl rfl rfl

/-- C6: `get_latest_versions_parallel` follows the fallback policy — for at
most 10 (post-filter) names the batch result is used whenever it is non-empty;
an empty batch result, or more than 10 names, falls through to one per-item
lookup per name; and a per-item exception is caught and mapped to an absent
result for that item only (the other items' entries are still produced by the
same per-item map). -/
theorem resolver_fallback_policy :
    ∀ (packages : List (String × String))
      (http : List String → Option (String → Option String))
      (one : String → Except Unit (Option String)),
      ((parallel_package_names packages).length ≤ 10 →
        get_latest_versions_batch (parallel_package_names packages) http ≠ [] →
        get_latest_versions_parallel packages http one =
          get_latest_versions_batch (parallel_package_names packages) http) ∧
      ((parallel_package_names packages).length ≤ 10 →
        get_latest_versions_batch (parallel_package_names packages) http = [] →
        get_latest_versions_parallel packages http one =
          (parallel_package_names packages).map
            (fun n => (n, itemOutcome one n))) ∧
      ((parallel_package_names packages).length > 10 →
        get_latest_versions_parallel packages http one =
          (parallel_package_names packages).map
            (fun n => (n, itemOutcome one n))) ∧
      (∀ n, one n = .error () → itemOutcome one n = none) := by
  intro packages http one
  refine ⟨?_, ?_, ?_, ?_⟩
  · intro hlen hne
    unfold get_latest_versions_parallel
    by_cases hnil : parallel_package_names packages = []
    · exact absurd (by rw [hnil]; rfl) hne
    · rw [if_neg hnil, if_pos hlen, if_pos hne]
  · intro hlen hz
    unfold get_latest_versions_parallel
    by_cases hnil : parallel_package_names packages = []
    · rw [if_pos hnil, hnil]
      rfl
    · rw [if_neg hnil, if_pos hlen, hz]
      simp
  · intro hlen
    unfold get_latest_versions_parallel
    have hnil : parallel_package_names packages ≠ [] := by
      intro hc
      rw [hc] at hlen
      simp at hlen
    rw [if_neg hnil, if_neg (by omega)]
  · intro n hn
    unfold itemOutcome
    rw [hn]

/-- C6 witness: with a batch stub that always fails and a per-item stub
resolving `"a"`, a two-package input (one project-pinned, hence filtered out)
falls through to the per-item path and yields the per-item result. -/
theorem resolver_fallback_policy_witness :
    get_latest_versions_parallel [("a", "1"), ("b", "project")]
      (fun _ => none)
      (fun n => if n = "a" then .ok (some "2.0.0") else .error ()) =
      [("a", some "2.0.0")] :=
  ((resolver_fallback_policy [("a", "1"), ("b", "project")]
      (fun _ => none)
      (fun n => if n = "a" then .ok (some "2.0.0") else .error ())).2.1
    (by decide) rfl).trans rfl

/-- C9: rollback distinguishes its failure modes — a missing snapshot exits 1
immediately; a non-empty selection matching nothing in the snapshot exits 1;
and a partial match proceeds with exact-pinned `name@version` specs for the
matched entries only, reports the unmatched requested names as skipped, and
propagates the install subprocess's exit code. -/
theorem rollback_failure_modes :
    ∀ (snapshot0 : List (String × String)) (packages : List String)
      (force confirmAnswer : Bool) (installCode : List String → Int),
      (rollback none packages force confirmAnswer installCode = ⟨1, [], []⟩) ∧
      (packages ≠ [] →
        snapshot0.filter (fun p => packages.contains p.1) = [] →
        rollback (some snapshot0) packages force confirmAnswer installCode =
          ⟨1, [], []⟩) ∧
      (∀ filtered, packages ≠ [] →
        snapshot0.filter (fun p => packages.contains p.1) = filtered →
        filtered ≠ [] →
        rollback (some snapshot0) packages true confirmAnswer installCode =
          ⟨installCode (filtered.map (fun p => p.1 ++ "@" ++ p.2)),
           filtered.map (fun p => p.1 ++ "@" ++ p.2),
           packages.filter (fun q => !(filtered.map Prod.fst).contains q)⟩) := by
  intro snapshot0 packages force confirmAnswer installCode
  refine ⟨rfl, ?_, ?_⟩
  · intro hne hz
    simp only [rollback]
    rw [if_neg hne, hz]
    simp
  · intro filtered hne hf hfne
    simp only [rollback]
    rw [if_neg hne, hf]
    simp [hfne]

/-- C9 witness: snapshot `{A, B, C}`, request `{A, Z}` — only `A` is rolled
back (spec `A@1`), `Z` is reported as skipped, and the overall operation
succeeds with the install's exit code 0. -/
theorem rollback_failure_modes_witness :
    rollback (some [("A", "1"), ("B", "2"), ("C", "3")]) ["A", "Z"]
      true false (fun _ => 0) = ⟨0, ["A@1"], ["Z"]⟩ :=
  (rollback_failure_modes [("A", "1"), ("B", "2"), ("C", "3")] ["A", "Z"]
      true false (fun _ => 0)).2.2 [("A", "1")] (by decide) rfl (by decide)

/-- C10: the disk gate fails open — when the free-space query raises
`OSError`, `check_disk_space` returns `(True, -1)`, and the update phase of
`check_and_update` with a failing disk oracle never takes the insufficient-
space abort: it proceeds exactly as the post-gate code (interactive filtering,
dry-run, snapshot, install) would. -/
theorem disk_gate_fails_open :
    (∀ min_mb : Nat, check_disk_space min_mb none = (true, -1)) ∧
    (∀ (snapshot : List (String × String)) (to_install : List String)
       (dry_run interactive : Bool) (confirm : String → Bool)
       (installCode : List String → Int),
       to_install ≠ [] →
       updatePhase snapshot to_install dry_run interactive none confirm
         installCode =
       updateAfterGate snapshot to_install dry_run interactive confirm
         installCode) := by
  constructor
  · intro min_mb
    rfl
  · intro snapshot to_install dry_run interactive confirm installCode hne
    unfold updatePhase
    rw [if_neg hne]
    simp [check_disk_space]

/-- C10 witness: with a failing disk oracle and a one-package plan, the update
phase runs the post-gate code and completes the snapshot + install. -/
theorem disk_gate_fails_open_witness :
    updatePhase [("a", "1")] ["a@latest"] false false none (fun _ => true)
      (fun _ => 0) =
    updateAfterGate [("a", "1")] ["a@latest"] false false (fun _ => true)
      (fun _ => 0) :=
  disk_gate_fails_open.2 [("a", "1")] ["a@latest"] false false
    (fun _ => true) (fun _ => 0) (by decide)

theorem foldl_excludedRow_to_install (l : List (String × String)) :
    ∀ acc : Partition, (l.foldl excludedRow acc).to_install = acc.to_install := by
  induction l with
  | nil => intro acc; rfl
  | cons q t ih =>
    intro acc
    rw [List.foldl_cons, ih]
    rfl

theorem excludedRowsStep_to_install (ap : Bool) (p : Partition) :
    (excludedRowsStep ap p).to_install = p.to_install := by
  unfold excludedRowsStep
  split
  · exact foldl_excludedRow_to_install _ _
  · rfl

/-- The orchestrator's three-positional-argument resolver call always raises
`TypeError` against npm.py's two-parameter signature. -/
theorem callParallelResolver_error (args : List (String × String))
    (http : List String → Option (String → Option String))
    (one : String → Except Unit (Option String)) :
    callParallelResolver args http one = .error .typeError :=
  rfl

/-- Every successful resolve phase produces an empty event list: the cache-hit
loop writes nothing, and the `cache_version` writes of the uncached loop sit
behind the resolver call, which never returns. -/
theorem resolvePhase_ok_events_nil (p : Partition) (use_cache : Bool)
    (cacheGet : String → Option String)
    (http : List String → Option (String → Option String))
    (one : String → Except Unit (Option String)) (r : Partition × List Event)
    (h : resolvePhase p use_cache cacheGet http one = .ok r) : r.2 = [] := by
  unfold resolvePhase at h
  cases use_cache with
  | false =>
    rw [callParallelResolver_error] at h
    simp at h
  | true =>
    simp only [if_true, callParallelResolver_error] at h
    split at h
    · cases h
      rfl
    · simp at h

/-- Every update-phase trace passes the snapshot-before-install check. -/
theorem updatePhase_snapBeforeInstall (snapshot : List (String × String))
    (to_install : List String) (dry_run interactive : Bool)
    (freeBytes : Option Nat) (confirm : String → Bool)
    (installCode : List String → Int) :
    snapBeforeInstallOk
      (updatePhase snapshot to_install dry_run interactive freeBytes confirm
        installCode).2 false = true := by
  unfold updatePhase updateAfterGate updateAfterChecks
  dsimp only
  repeat' split
  all_goals rfl

/-- C2: no execution of `check_and_update` invokes the install with the
snapshot not already persisted (every trace passes the ordered
snapshot-before-install check), and in every non-dry-run, non-interactive
update run that reaches the install, the trace is exactly a snapshot write of
the partition's snapshot followed by the install invocation of the plan. -/
theorem snapshot_write_precedes_install :
    (∀ (namevers : List String) (safe_dir : String)
       (do_check do_update dry_run include_project json_output outdated_only
        interactive use_cache : Bool) (cfg : Config)
       (verbose all_packages : Bool)
       (cacheGet : String → Option String)
       (http : List String → Option (String → Option String))
       (one : String → Except Unit (Option String))
       (freeBytes : Option Nat) (confirm : String → Bool)
       (installCode : List String → Int),
       snapBeforeInstallOk
         (check_and_update namevers safe_dir do_check do_update dry_run
           include_project json_output outdated_only interactive use_cache cfg
           verbose all_packages cacheGet http one freeBytes confirm
           installCode).2 false = true) ∧
    (∀ (namevers : List String) (safe_dir : String)
       (do_check include_project json_output outdated_only use_cache : Bool)
       (cfg : Config) (verbose all_packages : Bool)
       (cacheGet : String → Option String)
       (http : List String → Option (String → Option String))
       (one : String → Except Unit (Option String))
       (confirm : String → Bool) (installCode : List String → Int)
       (r : Partition × List Event),
       resolvePhase (partitionPackages namevers cfg include_project all_packages)
           use_cache cacheGet http one = .ok r →
       r.1.to_install ≠ [] →
       ∃ rest,
         (check_and_update namevers safe_dir do_check true false
           include_project json_output outdated_only false use_cache cfg
           verbose all_packages cacheGet http one none confirm
           installCode).2 =
           Event.snapshotWrite
             (partitionPackages namevers cfg include_project
               all_packages).snapshot ::
           Event.installInvoke r.1.to_install :: rest) := by
  constructor
  · intro namevers safe_dir do_check do_update dry_run include_project
      json_output outdated_only interactive use_cache cfg verbose all_packages
      cacheGet http one freeBytes confirm installCode
    unfold check_and_update
    dsimp only
    rcases hres : resolvePhase
        (partitionPackages namevers cfg include_project all_packages)
        use_cache cacheGet http one with e | r
    · rfl
    · have hnil := resolvePhase_ok_events_nil _ _ _ _ _ _ hres
      cases do_update with
      | false => simp [hnil, snapBeforeInstallOk]
      | true =>
        have hchk := updatePhase_snapBeforeInstall
          (partitionPackages namevers cfg include_project all_packages).snapshot
          (excludedRowsStep all_packages r.1).to_install dry_run interactive
          freeBytes confirm installCode
        simpa [hnil] using hchk
  · intro namevers safe_dir do_check include_project json_output outdated_only
      use_cache cfg verbose all_packages cacheGet http one confirm installCode
      r hres hne
    have hnil := resolvePhase_ok_events_nil _ _ _ _ _ _ hres
    have hti := excludedRowsStep_to_install all_packages r.1
    unfold check_and_update
    dsimp only
    rw [hres]
    simp only [if_true, hnil, List.nil_append]
    unfold updatePhase
    rw [hti, if_neg hne]
    simp only [check_disk_space, Bool.not_true, Bool.false_and,
      Bool.and_false, Bool.false_eq_true, if_false]
    unfold updateAfterGate
    simp only [Bool.false_eq_true, if_false, Bool.false_and]
    unfold updateAfterChecks
    by_cases hcode : installCode r.1.to_install = 0
    · rw [if_pos hcode]
      exact ⟨[Event.logUpdate r.1.to_install], rfl⟩
    · rw [if_neg hcode]
      exact ⟨[], rfl⟩

/-- C2 witness: a fully cache-hit run (so the broken resolver call is never
reached) with one outdated package performs the snapshot write immediately
before the install invocation. -/
theorem snapshot_write_precedes_install_witness :
    (check_and_update ["a@1.0.0"] "/home/user" true true false false false
      false false true ⟨[], false, 1, 10⟩ false false
      (fun n => if n = "a" then some "2.0.0" else none) (fun _ => none)
      (fun _ => .ok none) none (fun _ => true) (fun _ => 0)).2 =
      Event.snapshotWrite [("a", "1.0.0")] ::
      Event.installInvoke ["a@latest"] :: [Event.logUpdate ["a@latest"]] := by
  obtain ⟨rest, h⟩ := snapshot_write_precedes_install.2 ["a@1.0.0"]
    "/home/user" true false false false true ⟨[], false, 1, 10⟩ false false
    (fun n => if n = "a" then some "2.0.0" else none) (fun _ => none)
    (fun _ => .ok none) (fun _ => true) (fun _ => 0)
    (⟨["a"], ["1.0.0"], ["2.0.0"], ["OUTDATED"], ["a@latest"],
      [("a", "1.0.0")], [], [("a", "1.0.0")]⟩, []) rfl (by decide)
  have h2 : Event.snapshotWrite [("a", "1.0.0")] ::
      Event.installInvoke ["a@latest"] :: rest =
      Event.snapshotWrite [("a", "1.0.0")] ::
      Event.installInvoke ["a@latest"] :: [Event.logUpdate ["a@latest"]] :=
    h.symm.trans rfl
  simp only [List.cons.injEq, true_and] at h2
  rw [h, h2]
  rfl

/-- C8: in a non-dry-run update run whose resolution phase succeeded with a
non-empty plan, the required disk space is estimated at exactly 50 MB per
planned package, and a measured free space below that estimate makes the run
return exit code 1 with no mutation: the whole trace is empty, so no snapshot
is written and the install is never invoked. -/
theorem disk_space_gate_blocks_update :
    ∀ (namevers : List String) (safe_dir : String)
      (do_check include_project json_output outdated_only interactive
       use_cache : Bool) (cfg : Config) (verbose all_packages : Bool)
      (cacheGet : String → Option String)
      (http : List String → Option (String → Option String))
      (one : String → Except Unit (Option String))
      (confirm : String → Bool) (installCode : List String → Int)
      (r : Partition × List Event) (f : Nat),
      resolvePhase (partitionPackages namevers cfg include_project all_packages)
          use_cache cacheGet http one = .ok r →
      r.1.to_install ≠ [] →
      f / (1024 * 1024) < estimate_update_size r.1.to_install.length →
      estimate_update_size r.1.to_install.length =
        50 * r.1.to_install.length ∧
      check_and_update namevers safe_dir do_check true false include_project
          json_output outdated_only interactive use_cache cfg verbose
          all_packages cacheGet http one (some f) confirm installCode =
        (.ok 1, []) := by
  intro namevers safe_dir do_check include_project json_output outdated_only
    interactive use_cache cfg verbose all_packages cacheGet http one confirm
    installCode r f hres hne hlt
  have hnil := resolvePhase_ok_events_nil _ _ _ _ _ _ hres
  have hti := excludedRowsStep_to_install all_packages r.1
  refine ⟨Nat.mul_comm _ _, ?_⟩
  have hge : ¬ (f / (1024 * 1024) ≥ estimate_update_size r.1.to_install.length) :=
    not_le.mpr hlt
  unfold check_and_update
  dsimp only
  rw [hres]
  have hu : updatePhase
      (partitionPackages namevers cfg include_project all_packages).snapshot
      (excludedRowsStep all_packages r.1).to_install false interactive (some f)
      confirm installCode = (1, []) := by
    rw [hti]
    unfold updatePhase
    rw [if_neg hne]
    simp [check_disk_space, hge]
    intro hneg
    exact absurd hneg
      (not_lt.mpr (Int.ediv_nonneg (Int.natCast_nonneg f) (by norm_num)))
  simp [hu, hnil]

/-- C8 witness: a cache-hit run with one outdated package and zero free bytes
aborts with exit code 1 and an empty trace. -/
theorem disk_space_gate_blocks_update_witness :
    check_and_update ["a@1.0.0"] "/home/user" true true false false false
      false false true ⟨[], false, 1, 10⟩ false false
      (fun n => if n = "a" then some "2.0.0" else none) (fun _ => none)
      (fun _ => .ok none) (some 0) (fun _ => true) (fun _ => 0) =
      (.ok 1, []) :=
  (disk_space_gate_blocks_update ["a@1.0.0"] "/home/user" true false false
    false false true ⟨[], false, 1, 10⟩ false false
    (fun n => if n = "a" then some "2.0.0" else none) (fun _ => none)
    (fun _ => .ok none) (fun _ => true) (fun _ => 0)
    (⟨["a"], ["1.0.0"], ["2.0.0"], ["OUTDATED"], ["a@latest"],
      [("a", "1.0.0")], [], [("a", "1.0.0")]⟩, []) 0 rfl (by decide)
    (by decide)).2

theorem dictInsert_mem_keys (k v a : String) (s : List (String × String)) :
    (a ∈ (dictInsert k v s).map Prod.fst) ↔ a = k ∨ a ∈ s.map Prod.fst := by
  induction s with
  | nil => simp [dictInsert]
  | cons p t ih =>
    obtain ⟨b, c⟩ := p
    by_cases h : b = k
    · subst h
      simp [dictInsert]
    · rw [dictInsert, if_neg h]
      simp only [List.map_cons, List.mem_cons] at *
      rw [ih]
      tauto

theorem dictInsert_mem (k v : String) (kv : String × String)
    (s : List (String × String)) :
    kv ∈ dictInsert k v s → kv = (k, v) ∨ kv ∈ s := by
  induction s with
  | nil => simp [dictInsert]
  | cons p t ih =>
    obtain ⟨b, c⟩ := p
    by_cases h : b = k
    · subst h
      rw [dictInsert, if_pos rfl]
      simp only [List.mem_cons]
      tauto
    · rw [dictInsert, if_neg h]
      simp only [List.mem_cons]
      intro hm
      rcases hm with hm | hm
      · tauto
      · rcases ih hm with hm2 | hm2 <;> tauto

theorem partitionStep_snapshot_of_excluded (cfg : Config) (ip ap : Bool)
    (acc : Partition) (t : String)
    (h : cfg.should_exclude (parse_package t).1 = true) :
    (partitionStep cfg ip ap acc t).snapshot = acc.snapshot := by
  unfold partitionStep
  dsimp only
  rw [h, if_pos rfl]
  split <;> rfl

theorem partitionStep_snapshot_of_project (cfg : Config) (ip ap : Bool)
    (acc : Partition) (t : String)
    (h1 : cfg.should_exclude (parse_package t).1 = false)
    (h2 : (parse_package t).2 = "project") :
    (partitionStep cfg ip ap acc t).snapshot = acc.snapshot := by
  unfold partitionStep
  dsimp only
  rw [h1, if_neg (by simp), if_pos h2]

theorem partitionStep_snapshot_of_checkable (cfg : Config) (ip ap : Bool)
    (acc : Partition) (t : String)
    (h1 : cfg.should_exclude (parse_package t).1 = false)
    (h2 : (parse_package t).2 ≠ "project") :
    (partitionStep cfg ip ap acc t).snapshot =
      dictInsert (parse_package t).1 (parse_package t).2 acc.snapshot := by
  unfold partitionStep
  dsimp only
  rw [h1, if_neg (by simp), if_neg h2]

theorem checkable_names_cons_of_skipped (cfg : Config) (t : String)
    (ts : List String)
    (h : cfg.should_exclude (parse_package t).1 = true ∨
      (parse_package t).2 = "project") :
    checkable_names (t :: ts) cfg = checkable_names ts cfg := by
  unfold checkable_names
  rw [List.filterMap_cons]
  rcases h with h | h
  · simp [h]
  · simp [h]

theorem checkable_names_cons_of_checkable (cfg : Config) (t : String)
    (ts : List String)
    (h1 : cfg.should_exclude (parse_package t).1 = false)
    (h2 : (parse_package t).2 ≠ "project") :
    checkable_names (t :: ts) cfg =
      (parse_package t).1 :: checkable_names ts cfg := by
  unfold checkable_names
  rw [List.filterMap_cons]
  simp [h1, h2]

theorem partition_foldl_snapshot_keys (cfg : Config) (ip ap : Bool) :
    ∀ (l : List String) (acc : Partition) (a : String),
      (a ∈ ((l.foldl (partitionStep cfg ip ap) acc).snapshot.map Prod.fst)) ↔
        (a ∈ acc.snapshot.map Prod.fst ∨ a ∈ checkable_names l cfg) := by
  intro l
  induction l with
  | nil =>
    intro acc a
    simp [checkable_names]
  | cons t ts ih =>
    intro acc a
    rw [List.foldl_cons, ih]
    cases h1 : cfg.should_exclude (parse_package t).1 with
    | true =>
      rw [partitionStep_snapshot_of_excluded cfg ip ap acc t h1,
        checkable_names_cons_of_skipped cfg t ts (Or.inl h1)]
    | false =>
      by_cases h2 : (parse_package t).2 = "project"
      · rw [partitionStep_snapshot_of_project cfg ip ap acc t h1 h2,
          checkable_names_cons_of_skipped cfg t ts (Or.inr h2)]
      · rw [partitionStep_snapshot_of_checkable cfg ip ap acc t h1 h2,
          checkable_names_cons_of_checkable cfg t ts h1 h2,
          dictInsert_mem_keys]
        simp only [List.mem_cons]
        tauto

theorem partition_foldl_snapshot_mem (cfg : Config) (ip ap : Bool) :
    ∀ (l : List String) (acc : Partition) (kv : String × String),
      kv ∈ (l.foldl (partitionStep cfg ip ap) acc).snapshot →
      kv ∈ acc.snapshot ∨ ∃ tok, tok ∈ l ∧ parse_package tok = kv ∧
        cfg.should_exclude kv.1 = false ∧ kv.2 ≠ "project" := by
  intro l
  induction l with
  | nil =>
    intro acc kv h
    exact Or.inl h
  | cons t ts ih =>
    intro acc kv h
    rw [List.foldl_cons] at h
    rcases ih (partitionStep cfg ip ap acc t) kv h with hm | hm
    · cases h1 : cfg.should_exclude (parse_package t).1 with
      | true =>
        rw [partitionStep_snapshot_of_excluded cfg ip ap acc t h1] at hm
        exact Or.inl hm
      | false =>
        by_cases h2 : (parse_package t).2 = "project"
        · rw [partitionStep_snapshot_of_project cfg ip ap acc t h1 h2] at hm
          exact Or.inl hm
        · rw [partitionStep_snapshot_of_checkable cfg ip ap acc t h1 h2] at hm
          rcases dictInsert_mem _ _ _ _ hm with hm2 | hm2
          · refine Or.inr ⟨t, List.mem_cons_self t ts, ?_, ?_, ?_⟩
            · rw [hm2]
            · rw [hm2]
              exact h1
            · rw [hm2]
              exact h2
          · exact Or.inl hm2
    · obtain ⟨tok, htok, hrest⟩ := hm
      exact Or.inr ⟨tok, List.mem_cons_of_mem t htok, hrest⟩

/-- C3 counterexample: for the input `["a@project"]` with project inclusion
enabled, the claim requires the saved snapshot's key set to contain the
PROJECT name `"a"`, but the orchestrator's parsing loop `continue`s on
project-pinned tokens before the `snapshot[name] = ver` assignment
(operations.py lines 128-137), so the snapshot is empty. -/
theorem snapshot_drops_project_packages_counterexample :
    "a" ∈ claimed_snapshot_keys ["a@project"] ⟨[], false, 1, 10⟩ true ∧
    "a" ∉ ((partitionPackages ["a@project"] ⟨[], false, 1, 10⟩ true
      false).snapshot.map Prod.fst) := by
  decide

/-- C3 (amended): for every input token list and configuration, the snapshot
the update run would persist has key set exactly the CHECKABLE names (tokens
neither excluded nor project-pinned), each key mapping to the installed
version parsed from such a token; PROJECT packages are never included, even
when project inclusion is enabled. -/
theorem snapshot_keys_equal_checkable_names :
    ∀ (namevers : List String) (cfg : Config) (ip ap : Bool),
      (∀ a, (a ∈ ((partitionPackages namevers cfg ip ap).snapshot.map
          Prod.fst)) ↔ a ∈ checkable_names namevers cfg) ∧
      (∀ kv ∈ (partitionPackages namevers cfg ip ap).snapshot,
        ∃ tok, tok ∈ namevers ∧ parse_package tok = kv ∧
          cfg.should_exclude kv.1 = false ∧ kv.2 ≠ "project") := by
  intro namevers cfg ip ap
  constructor
  · intro a
    unfold partitionPackages
    rw [partition_foldl_snapshot_keys]
    simp [emptyPartition]
  · intro kv hkv
    unfold partitionPackages at hkv
    rcases partition_foldl_snapshot_mem cfg ip ap namevers emptyPartition kv
        hkv with h | h
    · simp [emptyPartition] at h
    · exact h

/-- C3 witness: the amended theorem applied to
`["typescript@4.9.5", "a@project"]` — the checkable name `typescript` is a
snapshot key. -/
theorem snapshot_keys_equal_checkable_names_witness :
    "typescript" ∈ ((partitionPackages ["typescript@4.9.5", "a@project"]
      ⟨[], false, 1, 10⟩ true false).snapshot.map Prod.fst) :=
  ((snapshot_keys_equal_checkable_names ["typescript@4.9.5", "a@project"]
    ⟨[], false, 1, 10⟩ true false).1 "typescript").mpr (by decide)

end VoltaManager
